import Mathlib

set_option maxHeartbeats 1000000

/-!
Shallow embedding of the CSV bulk-ingestion pipeline of the Lead record
management backend (function `upload_csv` in `core/views.py`), together with
proofs about it.

The embedding models one batch: the list of already-persisted emails is read
once at batch start (`existing_emails`), each data row is validated and, when
clean, written to the Record Store.  The store's per-row answer (fresh id,
uniqueness-constraint failure, or any other failure) is supplied as an oracle
value paired with each row, so that store-level failures can be analysed.
-/

/-- One CSV data row: the raw cell text of each of the seven columns,
as produced by `row.get(col, '')` in the source (a column absent from the
file is the empty string). -/
structure Row where
  name : String
  age : String
  email : String
  place : String
  status : String
  image_url : String
  remarks : String
deriving DecidableEq

/-- The default (all-empty) row, used only to total list indexing. -/
def defaultRow : Row := ⟨"", "", "", "", "", "", ""⟩

/-- The Record Store's answer to one `Lead.objects.create(...)` call:
success with the assigned id, an `IntegrityError` (uniqueness-constraint
violation), or any other exception carrying its message text. -/
inductive StoreOutcome where
  | ok (id : Nat)
  | integrityError
  | otherError (msg : String)
deriving DecidableEq

/-- One entry of the `errors` list of the response: row number, email (or
the `'N/A'` placeholder), and the semicolon-joined message. -/
structure ErrEntry where
  row : Nat
  email : String
  message : String
deriving DecidableEq

/-- The mutable state of one batch run of `upload_csv`: the four result
accumulators, the two email sets, the persisted store contents (the external
Record Store modelled as its set of stored emails), and the current row
number (`enumerate(reader, start=2)`). -/
structure BatchState where
  success_count : Nat
  error_count : Nat
  errors : List ErrEntry
  created_leads : List Nat
  seen_emails_in_csv : List String
  existing_emails : List String
  db_emails : List String
  row_num : Nat
deriving DecidableEq

/-- Python `str.strip()`: remove leading and trailing whitespace. -/
def pyStrip (s : String) : String :=
  ⟨((s.toList.dropWhile Char.isWhitespace).reverse.dropWhile Char.isWhitespace).reverse⟩

/-- Python `int(...)` digit tail: digits possibly separated by single
underscores (no trailing or doubled underscore). -/
def pyDigitsCore : List Char → Bool
  | [] => true
  | ['_'] => false
  | '_' :: c :: rest => c.isDigit && pyDigitsCore rest
  | c :: rest => c.isDigit && pyDigitsCore rest

/-- Python `int(...)` unsigned digit string: nonempty, starts with a digit. -/
def pyDigitStr : List Char → Bool
  | [] => false
  | c :: rest => c.isDigit && pyDigitsCore rest

/-- Numeric value of a digit string, ignoring underscores. -/
def digitsToNat (cs : List Char) : Nat :=
  cs.foldl (fun acc c => if c = '_' then acc else acc * 10 + (c.toNat - '0'.toNat)) 0

/-- Python `int(s)` on an already-stripped string: optional sign followed by
a digit string; `none` models the `ValueError`. -/
def parsePyInt (s : String) : Option Int :=
  match s.toList with
  | '+' :: rest => if pyDigitStr rest then some (Int.ofNat (digitsToNat rest)) else none
  | '-' :: rest => if pyDigitStr rest then some (-(Int.ofNat (digitsToNat rest))) else none
  | cs => if pyDigitStr cs then some (Int.ofNat (digitsToNat cs)) else none

/-- Modelled from the spec: the email-format check is delegated to the web
framework's validator (`django.core.validators.validate_email`), external to
this repository.  Modelled as: exactly one `@`, nonempty on both sides, and
no space.  The claims below do not depend on the exact format language. -/
def validate_email (s : String) : Bool :=
  let cs := s.toList
  cs.count '@' == 1 && cs.head? != some '@' && cs.getLast? != some '@' && !(cs.contains ' ')

/-- Validation of `name` (already trimmed), from `views.py` lines 127-131. -/
def nameErrors (name : String) : List String :=
  if name = "" then ["Name is required"]
  else if name.length > 100 then ["Name must be 100 characters or less"]
  else []

/-- Validation of `age` (already trimmed), from `views.py` lines 133-144. -/
def ageErrors (age_str : String) : List String :=
  if age_str = "" then ["Age is required"]
  else
    match parsePyInt age_str with
    | some a => if a < 0 then ["Age must be a positive number"] else []
    | none => ["Age must be a valid integer"]

/-- Validation of `email` (already trimmed) against format, the file-scope
set `seen_emails_in_csv` and the store-scope set `existing_emails`, from
`views.py` lines 146-166.  The membership tests use the sets as they stand
when the row is reached; the caller inserts the email afterwards. -/
def emailErrors (email : String) (seen existing : List String) : List String :=
  if email = "" then ["Email is required"]
  else
    (if validate_email email then [] else ["Invalid email format"])
      ++ (if email ∈ seen then ["Duplicate email in CSV file"] else [])
      ++ (if email ∈ existing then ["Email already exists in database"] else [])

/-- Validation of `place` (already trimmed), from `views.py` lines 168-172. -/
def placeErrors (place : String) : List String :=
  if place = "" then ["Place is required"]
  else if place.length > 100 then ["Place must be 100 characters or less"]
  else []

/-- Validation of `status` (already trimmed), from `views.py` lines 174-180. -/
def statusErrors (status_str : String) : List String :=
  if status_str = "" then ["Status is required"]
  else if status_str = "New" ∨ status_str = "Converted" then []
  else ["Status must be one of: New, Converted"]

/-- Validation of the optional `image_url` (already trimmed), from
`views.py` lines 182-184. -/
def imageUrlErrors (image_url : String) : List String :=
  if image_url ≠ "" ∧ image_url.length > 200 then ["Image URL must be 200 characters or less"]
  else []

/-- The full `row_errors` list accumulated for one row, in source order:
name, age, email (format, file-scope duplicate, store-scope duplicate),
place, status, image_url. -/
def row_errors (r : Row) (seen existing : List String) : List String :=
  nameErrors (pyStrip r.name)
    ++ ageErrors (pyStrip r.age)
    ++ emailErrors (pyStrip r.email) seen existing
    ++ placeErrors (pyStrip r.place)
    ++ statusErrors (pyStrip r.status)
    ++ imageUrlErrors (pyStrip r.image_url)

/-- Processing of one data row (`views.py` lines 112-220): validate, insert a
non-empty email into `seen_emails_in_csv`, and either record the error entry
or attempt the store write, handling `IntegrityError` and any other
exception per row.  On a successful write the email is also added to
`existing_emails` and to the store. -/
def processRow (s : BatchState) (x : Row × StoreOutcome) : BatchState :=
  let email := pyStrip x.1.email
  let errs := row_errors x.1 s.seen_emails_in_csv s.existing_emails
  let seen' := if email = "" then s.seen_emails_in_csv else email :: s.seen_emails_in_csv
  if errs = [] then
    match x.2 with
    | .ok id =>
        { s with success_count := s.success_count + 1
                 created_leads := s.created_leads ++ [id]
                 seen_emails_in_csv := seen'
                 existing_emails := email :: s.existing_emails
                 db_emails := email :: s.db_emails
                 row_num := s.row_num + 1 }
    | .integrityError =>
        { s with error_count := s.error_count + 1
                 errors := s.errors ++
                   [⟨s.row_num, email, "Database error: Email already exists or constraint violation"⟩]
                 seen_emails_in_csv := seen'
                 row_num := s.row_num + 1 }
    | .otherError msg =>
        { s with error_count := s.error_count + 1
                 errors := s.errors ++ [⟨s.row_num, email, "Unexpected error: " ++ msg⟩]
                 seen_emails_in_csv := seen'
                 row_num := s.row_num + 1 }
  else
    { s with error_count := s.error_count + 1
             errors := s.errors ++
               [⟨s.row_num, if email = "" then "N/A" else email, String.intercalate "; " errs⟩]
             seen_emails_in_csv := seen'
             row_num := s.row_num + 1 }

/-- The batch state before the first data row: zeroed accumulators, empty
file-scope set, `existing_emails` fetched once from the store, and row
number 2 (row 1 is the header). -/
def initState (existing : List String) : BatchState :=
  { success_count := 0
    error_count := 0
    errors := []
    created_leads := []
    seen_emails_in_csv := []
    existing_emails := existing
    db_emails := existing
    row_num := 2 }

/-- The whole row loop of `upload_csv`: fold `processRow` over the data rows
(each paired with the store's answer for it), starting from the batch-start
snapshot of persisted emails. -/
def upload_csv (inputs : List (Row × StoreOutcome)) (existing : List String) : BatchState :=
  inputs.foldl processRow (initState existing)

/-- The three response classifications of `views.py` lines 230-238. -/
inductive HttpStatus where
  | s201
  | s200
  | s400
deriving DecidableEq

/-- The response: the four summary fields plus the status classification
(`views.py` lines 222-238). -/
structure UploadResponse where
  success_count : Nat
  error_count : Nat
  errors : List ErrEntry
  created_leads : List Nat
  status : HttpStatus
deriving DecidableEq

/-- Build the response from the final batch state: the full summary in every
case, with 201 when no errors, 200 on partial success, 400 otherwise. -/
def buildResponse (s : BatchState) : UploadResponse :=
  { success_count := s.success_count
    error_count := s.error_count
    errors := s.errors
    created_leads := s.created_leads
    status :=
      if s.error_count = 0 then .s201
      else if s.success_count > 0 then .s200
      else .s400 }

/-- The batch state after the first `i` data rows have been processed. -/
def stateAfter (inputs : List (Row × StoreOutcome)) (existing : List String) (i : Nat) : BatchState :=
  upload_csv (inputs.take i) existing

/-- Row `i` (0-based) of the input, total via the all-empty default row. -/
def inputAt (inputs : List (Row × StoreOutcome)) (i : Nat) : Row × StoreOutcome :=
  inputs.getD i (defaultRow, .integrityError)

/-- The trimmed email of row `i` (0-based) of the input. -/
def emailAt (inputs : List (Row × StoreOutcome)) (i : Nat) : String :=
  pyStrip (inputAt inputs i).1.email

/-- Row `i` (0-based) was accepted: processing it incremented `success_count`. -/
def acceptedAt (inputs : List (Row × StoreOutcome)) (existing : List String) (i : Nat) : Prop :=
  (stateAfter inputs existing (i + 1)).success_count
    = (stateAfter inputs existing i).success_count + 1

/-! ### Elementary reductions -/

theorem parsePyInt_nil : parsePyInt "" = none := rfl

/-! ### Membership characterizations of the per-field validators -/

theorem mem_nameErrors_iff {x name : String} :
    x ∈ nameErrors name ↔
      (name = "" ∧ x = "Name is required")
      ∨ (name ≠ "" ∧ name.length > 100 ∧ x = "Name must be 100 characters or less") := by
  unfold nameErrors
  split <;> rename_i h1
  · simp [h1]
  · split <;> rename_i h2 <;> simp [h1, h2]

theorem mem_ageErrors_iff {x a : String} :
    x ∈ ageErrors a ↔
      (a = "" ∧ x = "Age is required")
      ∨ (a ≠ "" ∧ parsePyInt a = none ∧ x = "Age must be a valid integer")
      ∨ (∃ n, parsePyInt a = some n ∧ n < 0 ∧ x = "Age must be a positive number") := by
  by_cases h0 : a = ""
  · subst h0
    simp [ageErrors, parsePyInt_nil]
  · rcases hp : parsePyInt a with _ | n
    · simp [ageErrors, h0, hp]
    · by_cases hn : n < 0 <;> simp [ageErrors, h0, hp, hn]

theorem mem_emailErrors_iff {x e : String} {seen existing : List String} :
    x ∈ emailErrors e seen existing ↔
      (e = "" ∧ x = "Email is required")
      ∨ (e ≠ "" ∧ validate_email e = false ∧ x = "Invalid email format")
      ∨ (e ≠ "" ∧ e ∈ seen ∧ x = "Duplicate email in CSV file")
      ∨ (e ≠ "" ∧ e ∈ existing ∧ x = "Email already exists in database") := by
  by_cases h0 : e = ""
  · simp [emailErrors, h0]
  · by_cases hv : validate_email e
      <;> by_cases hs : e ∈ seen
      <;> by_cases he : e ∈ existing
      <;> simp [emailErrors, h0, hv, hs, he]

theorem mem_placeErrors_iff {x place : String} :
    x ∈ placeErrors place ↔
      (place = "" ∧ x = "Place is required")
      ∨ (place ≠ "" ∧ place.length > 100 ∧ x = "Place must be 100 characters or less") := by
  unfold placeErrors
  split <;> rename_i h1
  · simp [h1]
  · split <;> rename_i h2 <;> simp [h1, h2]

theorem mem_statusErrors_iff {x st : String} :
    x ∈ statusErrors st ↔
      (st = "" ∧ x = "Status is required")
      ∨ (st ≠ "" ∧ ¬(st = "New" ∨ st = "Converted")
          ∧ x = "Status must be one of: New, Converted") := by
  unfold statusErrors
  split <;> rename_i h1
  · simp [h1]
  · split <;> rename_i h2 <;> simp [h1, h2]

theorem mem_imageUrlErrors_iff {x u : String} :
    x ∈ imageUrlErrors u ↔
      (u ≠ "" ∧ u.length > 200 ∧ x = "Image URL must be 200 characters or less") := by
  unfold imageUrlErrors
  split <;> rename_i h1
  · simp [h1]
  · push_neg at h1
    simp
    intro h2 h3
    exact absurd (h1 h2) (by omega)

theorem mem_row_errors_iff {x : String} {r : Row} {seen existing : List String} :
    x ∈ row_errors r seen existing ↔
      x ∈ nameErrors (pyStrip r.name)
      ∨ x ∈ ageErrors (pyStrip r.age)
      ∨ x ∈ emailErrors (pyStrip r.email) seen existing
      ∨ x ∈ placeErrors (pyStrip r.place)
      ∨ x ∈ statusErrors (pyStrip r.status)
      ∨ x ∈ imageUrlErrors (pyStrip r.image_url) := by
  simp [row_errors, List.mem_append, or_assoc]

/-! ### Per-message characterizations over a whole row -/

theorem ageReq_mem_iff {r : Row} {seen existing : List String} :
    "Age is required" ∈ row_errors r seen existing ↔ pyStrip r.age = "" := by
  rw [mem_row_errors_iff]
  simp [mem_nameErrors_iff, mem_ageErrors_iff, mem_emailErrors_iff, mem_placeErrors_iff,
    mem_statusErrors_iff, mem_imageUrlErrors_iff]

theorem ageInt_mem_iff {r : Row} {seen existing : List String} :
    "Age must be a valid integer" ∈ row_errors r seen existing ↔
      pyStrip r.age ≠ "" ∧ parsePyInt (pyStrip r.age) = none := by
  rw [mem_row_errors_iff]
  simp [mem_nameErrors_iff, mem_ageErrors_iff, mem_emailErrors_iff, mem_placeErrors_iff,
    mem_statusErrors_iff, mem_imageUrlErrors_iff]

theorem agePos_mem_iff {r : Row} {seen existing : List String} :
    "Age must be a positive number" ∈ row_errors r seen existing ↔
      ∃ n, parsePyInt (pyStrip r.age) = some n ∧ n < 0 := by
  rw [mem_row_errors_iff]
  simp [mem_nameErrors_iff, mem_ageErrors_iff, mem_emailErrors_iff, mem_placeErrors_iff,
    mem_statusErrors_iff, mem_imageUrlErrors_iff]

theorem emailReq_mem_iff {r : Row} {seen existing : List String} :
    "Email is required" ∈ row_errors r seen existing ↔ pyStrip r.email = "" := by
  rw [mem_row_errors_iff]
  simp [mem_nameErrors_iff, mem_ageErrors_iff, mem_emailErrors_iff, mem_placeErrors_iff,
    mem_statusErrors_iff, mem_imageUrlErrors_iff]

theorem dupCsv_mem_iff {r : Row} {seen existing : List String} :
    "Duplicate email in CSV file" ∈ row_errors r seen existing ↔
      pyStrip r.email ≠ "" ∧ pyStrip r.email ∈ seen := by
  rw [mem_row_errors_iff]
  simp [mem_nameErrors_iff, mem_ageErrors_iff, mem_emailErrors_iff, mem_placeErrors_iff,
    mem_statusErrors_iff, mem_imageUrlErrors_iff]

theorem dupDb_mem_iff {r : Row} {seen existing : List String} :
    "Email already exists in database" ∈ row_errors r seen existing ↔
      pyStrip r.email ≠ "" ∧ pyStrip r.email ∈ existing := by
  rw [mem_row_errors_iff]
  simp [mem_nameErrors_iff, mem_ageErrors_iff, mem_emailErrors_iff, mem_placeErrors_iff,
    mem_statusErrors_iff, mem_imageUrlErrors_iff]

/-- A row with an empty error list has a non-empty email that is in neither
email set at the moment it is validated. -/
theorem row_errors_nil_email {r : Row} {seen existing : List String}
    (h : row_errors r seen existing = []) :
    pyStrip r.email ≠ "" ∧ pyStrip r.email ∉ seen ∧ pyStrip r.email ∉ existing := by
  refine ⟨fun he => ?_, fun hs => ?_, fun hx => ?_⟩
  · have h1 : "Email is required" ∈ row_errors r seen existing := emailReq_mem_iff.mpr he
    rw [h] at h1
    exact absurd h1 (List.not_mem_nil _)
  · by_cases he : pyStrip r.email = ""
    · have h1 : "Email is required" ∈ row_errors r seen existing := emailReq_mem_iff.mpr he
      rw [h] at h1
      exact absurd h1 (List.not_mem_nil _)
    · have h1 : "Duplicate email in CSV file" ∈ row_errors r seen existing :=
        dupCsv_mem_iff.mpr ⟨he, hs⟩
      rw [h] at h1
      exact absurd h1 (List.not_mem_nil _)
  · by_cases he : pyStrip r.email = ""
    · have h1 : "Email is required" ∈ row_errors r seen existing := emailReq_mem_iff.mpr he
      rw [h] at h1
      exact absurd h1 (List.not_mem_nil _)
    · have h1 : "Email already exists in database" ∈ row_errors r seen existing :=
        dupDb_mem_iff.mpr ⟨he, hx⟩
      rw [h] at h1
      exact absurd h1 (List.not_mem_nil _)

/-! ### Structure of one processing step -/

theorem processRow_row_num (s : BatchState) (x : Row × StoreOutcome) :
    (processRow s x).row_num = s.row_num + 1 := by
  simp only [processRow]
  split
  · cases x.2 <;> rfl
  · rfl

theorem processRow_seen (s : BatchState) (x : Row × StoreOutcome) :
    (processRow s x).seen_emails_in_csv =
      if pyStrip x.1.email = "" then s.seen_emails_in_csv
      else pyStrip x.1.email :: s.seen_emails_in_csv := by
  simp only [processRow]
  split
  · cases x.2 <;> rfl
  · rfl

theorem processRow_reject (s : BatchState) (x : Row × StoreOutcome)
    (h : row_errors x.1 s.seen_emails_in_csv s.existing_emails ≠ []) :
    processRow s x =
      { s with
          error_count := s.error_count + 1
          errors := s.errors ++
            [⟨s.row_num,
              if pyStrip x.1.email = "" then "N/A" else pyStrip x.1.email,
              String.intercalate "; " (row_errors x.1 s.seen_emails_in_csv s.existing_emails)⟩]
          seen_emails_in_csv :=
            if pyStrip x.1.email = "" then s.seen_emails_in_csv
            else pyStrip x.1.email :: s.seen_emails_in_csv
          row_num := s.row_num + 1 } := by
  simp only [processRow]
  split
  · rename_i he
    exact absurd he h
  · rfl

theorem processRow_ok (s : BatchState) (r : Row) (id : Nat)
    (h : row_errors r s.seen_emails_in_csv s.existing_emails = []) :
    processRow s (r, .ok id) =
      { s with
          success_count := s.success_count + 1
          created_leads := s.created_leads ++ [id]
          seen_emails_in_csv := pyStrip r.email :: s.seen_emails_in_csv
          existing_emails := pyStrip r.email :: s.existing_emails
          db_emails := pyStrip r.email :: s.db_emails
          row_num := s.row_num + 1 } := by
  have hne : pyStrip r.email ≠ "" := (row_errors_nil_email h).1
  simp [processRow, h, hne]

theorem processRow_integrity (s : BatchState) (r : Row)
    (h : row_errors r s.seen_emails_in_csv s.existing_emails = []) :
    processRow s (r, .integrityError) =
      { s with
          error_count := s.error_count + 1
          errors := s.errors ++
            [⟨s.row_num, pyStrip r.email,
              "Database error: Email already exists or constraint violation"⟩]
          seen_emails_in_csv := pyStrip r.email :: s.seen_emails_in_csv
          row_num := s.row_num + 1 } := by
  have hne : pyStrip r.email ≠ "" := (row_errors_nil_email h).1
  simp [processRow, h, hne]

theorem processRow_other (s : BatchState) (r : Row) (msg : String)
    (h : row_errors r s.seen_emails_in_csv s.existing_emails = []) :
    processRow s (r, .otherError msg) =
      { s with
          error_count := s.error_count + 1
          errors := s.errors ++ [⟨s.row_num, pyStrip r.email, "Unexpected error: " ++ msg⟩]
          seen_emails_in_csv := pyStrip r.email :: s.seen_emails_in_csv
          row_num := s.row_num + 1 } := by
  have hne : pyStrip r.email ≠ "" := (row_errors_nil_email h).1
  simp [processRow, h, hne]

theorem processRow_counts (s : BatchState) (x : Row × StoreOutcome) :
    (processRow s x).success_count + (processRow s x).error_count
      = s.success_count + s.error_count + 1 := by
  obtain ⟨r, o⟩ := x
  by_cases h : row_errors r s.seen_emails_in_csv s.existing_emails = []
  · cases o with
    | ok id =>
        rw [processRow_ok s r id h]
        simp
        omega
    | integrityError =>
        rw [processRow_integrity s r h]
        simp
        omega
    | otherError msg =>
        rw [processRow_other s r msg h]
        simp
        omega
  · rw [processRow_reject s (r, o) h]
    simp
    omega

theorem processRow_success_cases (s : BatchState) (x : Row × StoreOutcome) :
    (processRow s x).success_count = s.success_count
    ∨ ((processRow s x).success_count = s.success_count + 1
        ∧ row_errors x.1 s.seen_emails_in_csv s.existing_emails = []
        ∧ ∃ id, x.2 = .ok id) := by
  obtain ⟨r, o⟩ := x
  by_cases h : row_errors r s.seen_emails_in_csv s.existing_emails = []
  · cases o with
    | ok id =>
        right
        rw [processRow_ok s r id h]
        exact ⟨rfl, h, id, rfl⟩
    | integrityError =>
        left
        rw [processRow_integrity s r h]
    | otherError msg =>
        left
        rw [processRow_other s r msg h]
  · left
    rw [processRow_reject s (r, o) h]

/-! ### Fold and prefix machinery -/

theorem foldl_processRow_inv (P : BatchState → Prop)
    (hstep : ∀ s x, P s → P (processRow s x)) :
    ∀ (l : List (Row × StoreOutcome)) (s : BatchState), P s → P (l.foldl processRow s) := by
  intro l
  induction l with
  | nil => exact fun s hs => hs
  | cons x l ih => exact fun s hs => ih (processRow s x) (hstep s x hs)

theorem foldl_processRow_counts :
    ∀ (l : List (Row × StoreOutcome)) (s : BatchState),
      (l.foldl processRow s).success_count + (l.foldl processRow s).error_count
        = s.success_count + s.error_count + l.length := by
  intro l
  induction l with
  | nil => intro s; simp
  | cons x l ih =>
      intro s
      have h1 := processRow_counts s x
      have h2 := ih (processRow s x)
      simp only [List.foldl_cons, List.length_cons]
      omega

theorem foldl_processRow_row_num :
    ∀ (l : List (Row × StoreOutcome)) (s : BatchState),
      (l.foldl processRow s).row_num = s.row_num + l.length := by
  intro l
  induction l with
  | nil => intro s; simp
  | cons x l ih =>
      intro s
      have h1 := processRow_row_num s x
      have h2 := ih (processRow s x)
      simp only [List.foldl_cons, List.length_cons]
      omega

theorem foldl_processRow_seen_mono {e : String}
    (l : List (Row × StoreOutcome)) (s : BatchState)
    (he : e ∈ s.seen_emails_in_csv) :
    e ∈ (l.foldl processRow s).seen_emails_in_csv := by
  refine foldl_processRow_inv (fun t => e ∈ t.seen_emails_in_csv) ?_ l s he
  intro t x ht
  rw [processRow_seen]
  split
  · exact ht
  · exact List.mem_cons_of_mem _ ht

theorem foldl_processRow_db_existing
    (l : List (Row × StoreOutcome)) (s : BatchState)
    (h : s.db_emails = s.existing_emails) :
    (l.foldl processRow s).db_emails = (l.foldl processRow s).existing_emails := by
  refine foldl_processRow_inv (fun t => t.db_emails = t.existing_emails) ?_ l s h
  intro t x ht
  obtain ⟨r, o⟩ := x
  by_cases hr : row_errors r t.seen_emails_in_csv t.existing_emails = []
  · cases o with
    | ok id => rw [processRow_ok t r id hr]; simp [ht]
    | integrityError => rw [processRow_integrity t r hr]; exact ht
    | otherError msg => rw [processRow_other t r msg hr]; exact ht
  · rw [processRow_reject t (r, o) hr]
    exact ht

theorem stateAfter_zero (inputs : List (Row × StoreOutcome)) (existing : List String) :
    stateAfter inputs existing 0 = initState existing := rfl

theorem stateAfter_succ (inputs : List (Row × StoreOutcome)) (existing : List String)
    (i : Nat) (h : i < inputs.length) :
    stateAfter inputs existing (i + 1)
      = processRow (stateAfter inputs existing i) (inputAt inputs i) := by
  unfold stateAfter upload_csv
  rw [List.take_succ]
  have hx : inputs[i]? = some (inputAt inputs i) := by
    rw [List.getElem?_eq_getElem h]
    unfold inputAt
    simp [List.getD_eq_getElem?_getD, List.getElem?_eq_getElem h]
  rw [hx]
  simp [List.foldl_append]

theorem stateAfter_le (inputs : List (Row × StoreOutcome)) (existing : List String)
    {i j : Nat} (hij : i ≤ j) :
    stateAfter inputs existing j
      = ((inputs.drop i).take (j - i)).foldl processRow (stateAfter inputs existing i) := by
  unfold stateAfter upload_csv
  rw [← List.foldl_append, ← List.take_add]
  congr 2
  omega

/-! ### Claim theorems -/

/-- C1: for every processed batch, after all data rows are processed,
`success_count + error_count` equals the number of data rows in the file,
and the length of `created_leads` equals `success_count`. -/
theorem C1_batch_accounting (inputs : List (Row × StoreOutcome)) (existing : List String) :
    (upload_csv inputs existing).success_count + (upload_csv inputs existing).error_count
        = inputs.length
    ∧ (upload_csv inputs existing).created_leads.length
        = (upload_csv inputs existing).success_count := by
  unfold upload_csv
  constructor
  · have h := foldl_processRow_counts inputs (initState existing)
    simpa [initState] using h
  · refine foldl_processRow_inv (fun t => t.created_leads.length = t.success_count) ?_
      inputs (initState existing) rfl
    intro t x ht
    obtain ⟨r, o⟩ := x
    by_cases hr : row_errors r t.seen_emails_in_csv t.existing_emails = []
    · cases o with
      | ok id => rw [processRow_ok t r id hr]; simp [ht]
      | integrityError => rw [processRow_integrity t r hr]; exact ht
      | otherError msg => rw [processRow_other t r msg hr]; exact ht
    · rw [processRow_reject t (r, o) hr]; exact ht

/-- C5: after all rows are processed the classification is a function of the
two counters — no errors ⇒ 201 Full Success, errors with some successes ⇒
200 Partial Success, errors with no successes ⇒ 400 Total Failure — and in
every case the response carries the full summary. -/
theorem C5_classification (inputs : List (Row × StoreOutcome)) (existing : List String) :
    (buildResponse (upload_csv inputs existing)).success_count
        = (upload_csv inputs existing).success_count
    ∧ (buildResponse (upload_csv inputs existing)).error_count
        = (upload_csv inputs existing).error_count
    ∧ (buildResponse (upload_csv inputs existing)).errors = (upload_csv inputs existing).errors
    ∧ (buildResponse (upload_csv inputs existing)).created_leads
        = (upload_csv inputs existing).created_leads
    ∧ ((buildResponse (upload_csv inputs existing)).status = HttpStatus.s201
        ↔ (upload_csv inputs existing).error_count = 0)
    ∧ ((buildResponse (upload_csv inputs existing)).status = HttpStatus.s200
        ↔ (upload_csv inputs existing).error_count > 0
            ∧ (upload_csv inputs existing).success_count > 0)
    ∧ ((buildResponse (upload_csv inputs existing)).status = HttpStatus.s400
        ↔ (upload_csv inputs existing).error_count > 0
            ∧ (upload_csv inputs existing).success_count = 0) := by
  refine ⟨rfl, rfl, rfl, rfl, ?_, ?_, ?_⟩ <;>
    by_cases h1 : (upload_csv inputs existing).error_count = 0 <;>
    by_cases h2 : (upload_csv inputs existing).success_count > 0 <;>
    simp [buildResponse, h1, h2] <;> omega

/-- C10: a batch of zero data rows is Full Success (201) with both counters
zero, empty `errors` and `created_leads`, and no store write: the store
contents are exactly the batch-start contents. -/
theorem C10_empty_file (existing : List String) :
    buildResponse (upload_csv [] existing)
        = { success_count := 0, error_count := 0, errors := [], created_leads := [],
            status := HttpStatus.s201 }
    ∧ (upload_csv [] existing).db_emails = existing :=
  ⟨rfl, rfl⟩

/-- C6: row-level store failures never abort the batch — every data row is
consumed (the final row counter is 2 plus the number of rows) whatever the
store answers; a clean row whose write raises the uniqueness-constraint
failure is rejected with the generic constraint message, its row number and
its email; any other store failure rejects the row with a message embedding
the underlying error text. -/
theorem C6_store_failures (inputs : List (Row × StoreOutcome)) (existing : List String) :
    (upload_csv inputs existing).row_num = 2 + inputs.length
    ∧ (∀ (s : BatchState) (r : Row),
        row_errors r s.seen_emails_in_csv s.existing_emails = [] →
          ((processRow s (r, StoreOutcome.integrityError)).success_count = s.success_count
            ∧ (processRow s (r, StoreOutcome.integrityError)).error_count = s.error_count + 1
            ∧ (processRow s (r, StoreOutcome.integrityError)).errors = s.errors ++
                [⟨s.row_num, pyStrip r.email,
                  "Database error: Email already exists or constraint violation"⟩])
          ∧ ∀ msg : String,
              (processRow s (r, StoreOutcome.otherError msg)).success_count = s.success_count
              ∧ (processRow s (r, StoreOutcome.otherError msg)).error_count = s.error_count + 1
              ∧ (processRow s (r, StoreOutcome.otherError msg)).errors = s.errors ++
                  [⟨s.row_num, pyStrip r.email, "Unexpected error: " ++ msg⟩]) := by
  constructor
  · unfold upload_csv
    rw [foldl_processRow_row_num inputs (initState existing)]
    simp [initState]
  · intro s r h
    constructor
    · rw [processRow_integrity s r h]
      exact ⟨rfl, rfl, rfl⟩
    · intro msg
      rw [processRow_other s r msg h]
      exact ⟨rfl, rfl, rfl⟩

/-- A concrete clean row used in witnesses. -/
def rowCarol : Row := ⟨"Carol", "22", "carol@x.com", "NYC", "New", "", ""⟩

/-- Witness for C6: a clean row whose store write raises the
uniqueness-constraint failure produces exactly the generic rejection entry. -/
theorem C6_store_failures_witness :
    (processRow (initState []) (rowCarol, StoreOutcome.integrityError)).errors
      = [⟨2, "carol@x.com", "Database error: Email already exists or constraint violation"⟩] := by
  have h := ((C6_store_failures [] []).2 (initState []) rowCarol (by decide)).1.2.2
  rw [h]
  rfl

/-- The structural (non-duplicate) validation messages: everything the Field
Validator itself can emit, excluding the two Duplicate Tracker messages. -/
def structuralOnly (m : String) : Bool :=
  m != "Duplicate email in CSV file" && m != "Email already exists in database"

theorem structuralOnly_nameErrors (n : String) :
    (nameErrors n).filter structuralOnly = nameErrors n := by
  rw [List.filter_eq_self]
  intro x hx
  rcases mem_nameErrors_iff.mp hx with ⟨_, rfl⟩ | ⟨_, _, rfl⟩ <;> rfl

theorem structuralOnly_ageErrors (a : String) :
    (ageErrors a).filter structuralOnly = ageErrors a := by
  rw [List.filter_eq_self]
  intro x hx
  rcases mem_ageErrors_iff.mp hx with ⟨_, rfl⟩ | ⟨_, _, rfl⟩ | ⟨_, _, _, rfl⟩ <;> rfl

theorem structuralOnly_placeErrors (p : String) :
    (placeErrors p).filter structuralOnly = placeErrors p := by
  rw [List.filter_eq_self]
  intro x hx
  rcases mem_placeErrors_iff.mp hx with ⟨_, rfl⟩ | ⟨_, _, rfl⟩ <;> rfl

theorem structuralOnly_statusErrors (st : String) :
    (statusErrors st).filter structuralOnly = statusErrors st := by
  rw [List.filter_eq_self]
  intro x hx
  rcases mem_statusErrors_iff.mp hx with ⟨_, rfl⟩ | ⟨_, _, rfl⟩ <;> rfl

theorem structuralOnly_imageUrlErrors (u : String) :
    (imageUrlErrors u).filter structuralOnly = imageUrlErrors u := by
  rw [List.filter_eq_self]
  intro x hx
  obtain ⟨_, _, rfl⟩ := mem_imageUrlErrors_iff.mp hx
  rfl

theorem structuralOnly_emailErrors (e : String) (seen existing : List String) :
    (emailErrors e seen existing).filter structuralOnly = emailErrors e [] [] := by
  unfold emailErrors
  by_cases h0 : e = ""
  · simp only [h0, if_pos rfl]
    rfl
  · by_cases hv : validate_email e <;>
      by_cases hs : e ∈ seen <;>
      by_cases hx : e ∈ existing <;>
      simp [h0, hv, hs, hx, List.filter_append, structuralOnly]

/-- C9: field validation is a pure function of the row: the structural
(non-duplicate) part of `row_errors` is identical whatever the batch state,
so running the Field Validator twice on the same Row Input yields identical
error lists. -/
theorem C9_validator_pure (r : Row) (seen1 existing1 seen2 existing2 : List String) :
    (row_errors r seen1 existing1).filter structuralOnly
      = (row_errors r seen2 existing2).filter structuralOnly := by
  have key : ∀ seen existing : List String,
      (row_errors r seen existing).filter structuralOnly
        = nameErrors (pyStrip r.name) ++ ageErrors (pyStrip r.age)
            ++ emailErrors (pyStrip r.email) [] [] ++ placeErrors (pyStrip r.place)
            ++ statusErrors (pyStrip r.status) ++ imageUrlErrors (pyStrip r.image_url) := by
    intro seen existing
    unfold row_errors
    simp only [List.filter_append]
    rw [structuralOnly_nameErrors, structuralOnly_ageErrors, structuralOnly_emailErrors,
      structuralOnly_placeErrors, structuralOnly_statusErrors, structuralOnly_imageUrlErrors]
  rw [key seen1 existing1, key seen2 existing2]

/-- C7: age validation — "Age is required" exactly when the trimmed field is
empty, "Age must be a valid integer" exactly when non-empty but unparsable,
"Age must be a positive number" exactly when it parses negative, and an age
of exactly zero produces no age error at all. -/
theorem C7_age_validation (r : Row) (seen existing : List String) :
    ("Age is required" ∈ row_errors r seen existing ↔ pyStrip r.age = "")
    ∧ ("Age must be a valid integer" ∈ row_errors r seen existing
        ↔ pyStrip r.age ≠ "" ∧ parsePyInt (pyStrip r.age) = none)
    ∧ ("Age must be a positive number" ∈ row_errors r seen existing
        ↔ ∃ n, parsePyInt (pyStrip r.age) = some n ∧ n < 0)
    ∧ (parsePyInt (pyStrip r.age) = some 0 →
        "Age is required" ∉ row_errors r seen existing
        ∧ "Age must be a valid integer" ∉ row_errors r seen existing
        ∧ "Age must be a positive number" ∉ row_errors r seen existing) := by
  refine ⟨ageReq_mem_iff, ageInt_mem_iff, agePos_mem_iff, fun h0 => ⟨?_, ?_, ?_⟩⟩
  · rw [ageReq_mem_iff]
    intro he
    rw [he, parsePyInt_nil] at h0
    cases h0
  · rw [ageInt_mem_iff]
    rintro ⟨hne, hn⟩
    rw [hn] at h0
    cases h0
  · rw [agePos_mem_iff]
    rintro ⟨n, hn, hlt⟩
    rw [h0] at hn
    injection hn with h
    omega

/-- A concrete row whose age field is exactly "0". -/
def rowZed : Row := ⟨"Zed", "0", "zed@x.com", "LA", "New", "", ""⟩

/-- Witness for C7: a row with age exactly zero produces no age error. -/
theorem C7_age_validation_witness :
    parsePyInt (pyStrip rowZed.age) = some 0
    ∧ "Age must be a positive number" ∉ row_errors rowZed [] [] :=
  ⟨by decide, ((C7_age_validation rowZed [] []).2.2.2 (by decide)).2.2⟩

/-- C8: a row with any of name, age, email, place or status empty after
trimming is always Rejected (error counted, nothing created, nothing
written), regardless of the other fields; and rules are applied
independently: every failing rule contributes its message to the row's
error list. -/
theorem C8_required_fields (s : BatchState) (r : Row) (o : StoreOutcome) :
    ((pyStrip r.name = "" ∨ pyStrip r.age = "" ∨ pyStrip r.email = ""
        ∨ pyStrip r.place = "" ∨ pyStrip r.status = "") →
      row_errors r s.seen_emails_in_csv s.existing_emails ≠ []
      ∧ (processRow s (r, o)).error_count = s.error_count + 1
      ∧ (processRow s (r, o)).success_count = s.success_count
      ∧ (processRow s (r, o)).created_leads = s.created_leads
      ∧ (processRow s (r, o)).db_emails = s.db_emails)
    ∧ (∀ seen existing : List String,
        (pyStrip r.name = "" → "Name is required" ∈ row_errors r seen existing)
        ∧ (pyStrip r.name ≠ "" ∧ (pyStrip r.name).length > 100
            → "Name must be 100 characters or less" ∈ row_errors r seen existing)
        ∧ (pyStrip r.age = "" → "Age is required" ∈ row_errors r seen existing)
        ∧ (pyStrip r.age ≠ "" ∧ parsePyInt (pyStrip r.age) = none
            → "Age must be a valid integer" ∈ row_errors r seen existing)
        ∧ (∀ n, parsePyInt (pyStrip r.age) = some n → n < 0
            → "Age must be a positive number" ∈ row_errors r seen existing)
        ∧ (pyStrip r.email = "" → "Email is required" ∈ row_errors r seen existing)
        ∧ (pyStrip r.email ≠ "" ∧ validate_email (pyStrip r.email) = false
            → "Invalid email format" ∈ row_errors r seen existing)
        ∧ (pyStrip r.email ≠ "" ∧ pyStrip r.email ∈ seen
            → "Duplicate email in CSV file" ∈ row_errors r seen existing)
        ∧ (pyStrip r.email ≠ "" ∧ pyStrip r.email ∈ existing
            → "Email already exists in database" ∈ row_errors r seen existing)
        ∧ (pyStrip r.place = "" → "Place is required" ∈ row_errors r seen existing)
        ∧ (pyStrip r.place ≠ "" ∧ (pyStrip r.place).length > 100
            → "Place must be 100 characters or less" ∈ row_errors r seen existing)
        ∧ (pyStrip r.status = "" → "Status is required" ∈ row_errors r seen existing)
        ∧ (pyStrip r.status ≠ "" ∧ ¬(pyStrip r.status = "New" ∨ pyStrip r.status = "Converted")
            → "Status must be one of: New, Converted" ∈ row_errors r seen existing)
        ∧ (pyStrip r.image_url ≠ "" ∧ (pyStrip r.image_url).length > 200
            → "Image URL must be 200 characters or less" ∈ row_errors r seen existing)) := by
  constructor
  · intro hreq
    have hmem : row_errors r s.seen_emails_in_csv s.existing_emails ≠ [] := by
      rcases hreq with h | h | h | h | h
      · exact List.ne_nil_of_mem
          (mem_row_errors_iff.mpr (Or.inl (mem_nameErrors_iff.mpr (Or.inl ⟨h, rfl⟩))))
      · exact List.ne_nil_of_mem (ageReq_mem_iff.mpr h)
      · exact List.ne_nil_of_mem (emailReq_mem_iff.mpr h)
      · exact List.ne_nil_of_mem
          (mem_row_errors_iff.mpr (Or.inr (Or.inr (Or.inr (Or.inl
            (mem_placeErrors_iff.mpr (Or.inl ⟨h, rfl⟩)))))))
      · exact List.ne_nil_of_mem
          (mem_row_errors_iff.mpr (Or.inr (Or.inr (Or.inr (Or.inr (Or.inl
            (mem_statusErrors_iff.mpr (Or.inl ⟨h, rfl⟩))))))))
    rw [processRow_reject s (r, o) hmem]
    exact ⟨hmem, rfl, rfl, rfl, rfl⟩
  · intro seen existing
    refine ⟨?_, ?_, ?_, ?_, ?_, ?_, ?_, ?_, ?_, ?_, ?_, ?_, ?_, ?_⟩
    · exact fun h => mem_row_errors_iff.mpr (Or.inl (mem_nameErrors_iff.mpr (Or.inl ⟨h, rfl⟩)))
    · exact fun h => mem_row_errors_iff.mpr (Or.inl (mem_nameErrors_iff.mpr (Or.inr ⟨h.1, h.2, rfl⟩)))
    · exact fun h => ageReq_mem_iff.mpr h
    · exact fun h => ageInt_mem_iff.mpr h
    · exact fun n hp hlt => agePos_mem_iff.mpr ⟨n, hp, hlt⟩
    · exact fun h => emailReq_mem_iff.mpr h
    · exact fun h => mem_row_errors_iff.mpr (Or.inr (Or.inr (Or.inl
        (mem_emailErrors_iff.mpr (Or.inr (Or.inl ⟨h.1, h.2, rfl⟩))))))
    · exact fun h => dupCsv_mem_iff.mpr h
    · exact fun h => dupDb_mem_iff.mpr h
    · exact fun h => mem_row_errors_iff.mpr (Or.inr (Or.inr (Or.inr (Or.inl
        (mem_placeErrors_iff.mpr (Or.inl ⟨h, rfl⟩))))))
    · exact fun h => mem_row_errors_iff.mpr (Or.inr (Or.inr (Or.inr (Or.inl
        (mem_placeErrors_iff.mpr (Or.inr ⟨h.1, h.2, rfl⟩))))))
    · exact fun h => mem_row_errors_iff.mpr (Or.inr (Or.inr (Or.inr (Or.inr (Or.inl
        (mem_statusErrors_iff.mpr (Or.inl ⟨h, rfl⟩)))))))
    · exact fun h => mem_row_errors_iff.mpr (Or.inr (Or.inr (Or.inr (Or.inr (Or.inl
        (mem_statusErrors_iff.mpr (Or.inr ⟨h.1, h.2, rfl⟩)))))))
    · exact fun h => mem_row_errors_iff.mpr (Or.inr (Or.inr (Or.inr (Or.inr (Or.inr
        (mem_imageUrlErrors_iff.mpr ⟨h.1, h.2, rfl⟩))))))

/-- A concrete row with an empty name and a negative age. -/
def rowMulti : Row := ⟨"", "-3", "bad", "LA", "Old", "", ""⟩

/-- Witness for C8: the row with empty name and age -3 is rejected and its
error list carries both the name message and the age message. -/
theorem C8_required_fields_witness :
    row_errors rowMulti [] [] ≠ []
    ∧ "Name is required" ∈ row_errors rowMulti [] []
    ∧ "Age must be a positive number" ∈ row_errors rowMulti [] [] :=
  ⟨((C8_required_fields (initState []) rowMulti (StoreOutcome.ok 0)).1 (Or.inl (by decide))).1,
   ((C8_required_fields (initState []) rowMulti (StoreOutcome.ok 0)).2 [] []).1 (by decide),
   (((C8_required_fields (initState []) rowMulti (StoreOutcome.ok 0)).2 [] []).2.2.2.2.1 : ∀ n, _)
     (-3) (by decide) (by decide)⟩

/-! ### Acceptance of a row inside a batch -/

theorem acceptedAt_elim (inputs : List (Row × StoreOutcome)) (existing : List String)
    (i : Nat) (hi : i < inputs.length) (ha : acceptedAt inputs existing i) :
    row_errors (inputAt inputs i).1
        (stateAfter inputs existing i).seen_emails_in_csv
        (stateAfter inputs existing i).existing_emails = []
      ∧ ∃ id, (inputAt inputs i).2 = StoreOutcome.ok id := by
  unfold acceptedAt at ha
  rw [stateAfter_succ inputs existing i hi] at ha
  rcases processRow_success_cases (stateAfter inputs existing i) (inputAt inputs i) with
    h | ⟨_, h2, h3⟩
  · rw [h] at ha
    omega
  · exact ⟨h2, h3⟩

theorem emailAt_mem_seen_succ (inputs : List (Row × StoreOutcome)) (existing : List String)
    (i : Nat) (hi : i < inputs.length) (hne : emailAt inputs i ≠ "") :
    emailAt inputs i ∈ (stateAfter inputs existing (i + 1)).seen_emails_in_csv := by
  rw [stateAfter_succ inputs existing i hi, processRow_seen]
  unfold emailAt at hne ⊢
  rw [if_neg hne]
  exact List.mem_cons_self _ _

theorem seen_mono_stateAfter (inputs : List (Row × StoreOutcome)) (existing : List String)
    {k j : Nat} (hkj : k ≤ j) {e : String}
    (he : e ∈ (stateAfter inputs existing k).seen_emails_in_csv) :
    e ∈ (stateAfter inputs existing j).seen_emails_in_csv := by
  rw [stateAfter_le inputs existing hkj]
  exact foldl_processRow_seen_mono _ _ he

theorem stateAfter_db_eq (inputs : List (Row × StoreOutcome)) (existing : List String)
    (i : Nat) :
    (stateAfter inputs existing i).db_emails = (stateAfter inputs existing i).existing_emails := by
  unfold stateAfter upload_csv
  exact foldl_processRow_db_existing _ _ rfl

/-- C2: within one batch no two Accepted rows share an email, and no
Accepted row's email is in the persisted store at the moment that row is
processed. -/
theorem C2_accepted_emails (inputs : List (Row × StoreOutcome)) (existing : List String) :
    (∀ i j, i < j → j < inputs.length →
      acceptedAt inputs existing i → acceptedAt inputs existing j →
      emailAt inputs i ≠ emailAt inputs j)
    ∧ (∀ i, i < inputs.length → acceptedAt inputs existing i →
        emailAt inputs i ∉ (stateAfter inputs existing i).db_emails) := by
  constructor
  · intro i j hij hj hai haj heq
    have hi : i < inputs.length := lt_trans hij hj
    obtain ⟨herrsj, _⟩ := acceptedAt_elim inputs existing j hj haj
    have hnotin := (row_errors_nil_email herrsj).2.1
    obtain ⟨herrsi, _⟩ := acceptedAt_elim inputs existing i hi hai
    have hnei : emailAt inputs i ≠ "" := (row_errors_nil_email herrsi).1
    have h2 : emailAt inputs i ∈ (stateAfter inputs existing j).seen_emails_in_csv :=
      seen_mono_stateAfter inputs existing (Nat.succ_le_of_lt hij)
        (emailAt_mem_seen_succ inputs existing i hi hnei)
    rw [heq] at h2
    exact hnotin h2
  · intro i hi hai
    obtain ⟨herrs, _⟩ := acceptedAt_elim inputs existing i hi hai
    have hx := (row_errors_nil_email herrs).2.2
    rw [stateAfter_db_eq inputs existing i]
    exact hx

/-- A second concrete clean row, with a distinct email. -/
def rowDan : Row := ⟨"Dan", "33", "dan@x.com", "SF", "Converted", "", ""⟩

/-- Witness for C2 on a concrete two-row batch in which both rows are
accepted. -/
theorem C2_accepted_emails_witness :
    emailAt [(rowCarol, StoreOutcome.ok 0), (rowDan, StoreOutcome.ok 1)] 0
      ≠ emailAt [(rowCarol, StoreOutcome.ok 0), (rowDan, StoreOutcome.ok 1)] 1
    ∧ emailAt [(rowCarol, StoreOutcome.ok 0), (rowDan, StoreOutcome.ok 1)] 0
      ∉ (stateAfter [(rowCarol, StoreOutcome.ok 0), (rowDan, StoreOutcome.ok 1)] [] 0).db_emails :=
  ⟨(C2_accepted_emails [(rowCarol, StoreOutcome.ok 0), (rowDan, StoreOutcome.ok 1)] []).1
      0 1 (by decide) (by decide) (by unfold acceptedAt; rfl) (by unfold acceptedAt; rfl),
   (C2_accepted_emails [(rowCarol, StoreOutcome.ok 0), (rowDan, StoreOutcome.ok 1)] []).2
      0 (by decide) (by unfold acceptedAt; rfl)⟩

/-- A concrete row with an unparsable age, email `d@x.com`. -/
def rowBadAge : Row := ⟨"Bob", "x", "d@x.com", "LA", "New", "", ""⟩

/-- A concrete clean row sharing the email `d@x.com`. -/
def rowDora : Row := ⟨"Dora", "20", "d@x.com", "LA", "New", "", ""⟩

/-- Counterexample to C3: in a batch whose first row (email `d@x.com`) is
rejected for a bad age, the second row with the same email is still flagged
with the file-duplicate message although nothing was persisted
(`success_count = 0`): the file-scope set grows on every row with a
non-empty email, not only after a successful store write. -/
theorem C3_counterexample :
    (upload_csv [(rowBadAge, StoreOutcome.ok 0), (rowDora, StoreOutcome.ok 1)] []).success_count
        = 0
    ∧ (upload_csv [(rowBadAge, StoreOutcome.ok 0), (rowDora, StoreOutcome.ok 1)] []).errors =
        [⟨2, "d@x.com", "Age must be a valid integer"⟩,
         ⟨3, "d@x.com", "Duplicate email in CSV file"⟩] := by
  decide

/-- C3 (amended): the file-scope duplicate set gains the trimmed email of
every processed row whose email is non-empty — accepted or rejected — so a
later row with the same email is flagged with the file-duplicate message
(and its row rejected) whenever an earlier row carried that email, whether
or not that earlier row was persisted. -/
theorem C3_amended_tracking (inputs : List (Row × StoreOutcome)) (existing : List String) :
    (∀ (s : BatchState) (x : Row × StoreOutcome), pyStrip x.1.email ≠ "" →
        pyStrip x.1.email ∈ (processRow s x).seen_emails_in_csv)
    ∧ (∀ i j, i < j → j < inputs.length → emailAt inputs i ≠ "" →
        emailAt inputs i = emailAt inputs j →
        "Duplicate email in CSV file" ∈
          row_errors (inputAt inputs j).1
            (stateAfter inputs existing j).seen_emails_in_csv
            (stateAfter inputs existing j).existing_emails
        ∧ (stateAfter inputs existing (j + 1)).error_count
            = (stateAfter inputs existing j).error_count + 1) := by
  constructor
  · intro s x hne
    rw [processRow_seen, if_neg hne]
    exact List.mem_cons_self _ _
  · intro i j hij hj hne heq
    have hi : i < inputs.length := lt_trans hij hj
    have h2 : emailAt inputs i ∈ (stateAfter inputs existing j).seen_emails_in_csv :=
      seen_mono_stateAfter inputs existing (Nat.succ_le_of_lt hij)
        (emailAt_mem_seen_succ inputs existing i hi hne)
    have hnej : emailAt inputs j ≠ "" := heq ▸ hne
    have h2j : emailAt inputs j ∈ (stateAfter inputs existing j).seen_emails_in_csv := heq ▸ h2
    have hmem : "Duplicate email in CSV file" ∈
        row_errors (inputAt inputs j).1
          (stateAfter inputs existing j).seen_emails_in_csv
          (stateAfter inputs existing j).existing_emails :=
      dupCsv_mem_iff.mpr ⟨hnej, h2j⟩
    refine ⟨hmem, ?_⟩
    rw [stateAfter_succ inputs existing j hj,
      processRow_reject _ _ (List.ne_nil_of_mem hmem)]

/-- Witness for the amended C3 on the concrete batch of the counterexample:
the unpersisted first row still causes the second to be flagged. -/
theorem C3_amended_tracking_witness :
    "Duplicate email in CSV file" ∈
      row_errors (inputAt [(rowBadAge, StoreOutcome.ok 0), (rowDora, StoreOutcome.ok 1)] 1).1
        (stateAfter [(rowBadAge, StoreOutcome.ok 0), (rowDora, StoreOutcome.ok 1)] [] 1).seen_emails_in_csv
        (stateAfter [(rowBadAge, StoreOutcome.ok 0), (rowDora, StoreOutcome.ok 1)] [] 1).existing_emails :=
  ((C3_amended_tracking [(rowBadAge, StoreOutcome.ok 0), (rowDora, StoreOutcome.ok 1)] []).2
    0 1 (by decide) (by decide) (by decide) (by decide)).1

/-- Counterexample to C4: with an empty batch-start snapshot, a second
occurrence of an email first persisted earlier in the same batch is rejected
with the store-duplicate message — so that message is not equivalent to
membership in the snapshot fetched at batch start, and the snapshot set is
mutated during the batch. -/
theorem C4_counterexample :
    "d@x.com" ∉ ([] : List String)
    ∧ (upload_csv [(rowDora, StoreOutcome.ok 0), (rowDora, StoreOutcome.ok 1)] []).errors =
        [⟨3, "d@x.com", "Duplicate email in CSV file; Email already exists in database"⟩] := by
  decide

/-- C4 (amended): the store-duplicate message is appended exactly when the
row's non-empty trimmed email is in the `existing_emails` set as it stands
when the row is processed; that set starts as the batch-start snapshot and
gains the email of each successfully persisted row (and nothing else). -/
theorem C4_amended_snapshot :
    (∀ (r : Row) (seen existing : List String), pyStrip r.email ≠ "" →
        ("Email already exists in database" ∈ row_errors r seen existing
          ↔ pyStrip r.email ∈ existing))
    ∧ (∀ (s : BatchState) (x : Row × StoreOutcome),
        ((processRow s x).existing_emails = s.existing_emails
          ∧ (processRow s x).success_count = s.success_count)
        ∨ ((processRow s x).success_count = s.success_count + 1
            ∧ (processRow s x).existing_emails = pyStrip x.1.email :: s.existing_emails
            ∧ (processRow s x).db_emails = pyStrip x.1.email :: s.db_emails)) := by
  constructor
  · intro r seen existing hne
    rw [dupDb_mem_iff]
    simp [hne]
  · intro s x
    obtain ⟨r, o⟩ := x
    by_cases hr : row_errors r s.seen_emails_in_csv s.existing_emails = []
    · cases o with
      | ok id =>
          right
          rw [processRow_ok s r id hr]
          exact ⟨rfl, rfl, rfl⟩
      | integrityError =>
          left
          rw [processRow_integrity s r hr]
          exact ⟨rfl, rfl⟩
      | otherError msg =>
          left
          rw [processRow_other s r msg hr]
          exact ⟨rfl, rfl⟩
    · left
      rw [processRow_reject s (r, o) hr]
      exact ⟨rfl, rfl⟩

/-- Witness for the amended C4: the store-duplicate message fires exactly on
membership in the current `existing_emails` set. -/
theorem C4_amended_snapshot_witness :
    "Email already exists in database" ∈ row_errors rowDora [] ["d@x.com"] :=
  (C4_amended_snapshot.1 rowDora [] ["d@x.com"] (by decide)).mpr (by decide)
